import Mathlib

set_option maxRecDepth 8000

/-! Verification of the request construction and authentication layer of a
Twitter API client library. The development shallowly embeds the request
maker mixin (credential selection, URL resolution, query and body codecs,
rate-limit store, stream dispatch) and proves theorems checking its
natural-language specification. Helper modules that are external to the
embedded source (URL parsing, the parameter codec, the OAuth signer) are
modelled from the specification, as marked on each definition. -/

/-- Lookup in a string-keyed association list, mirroring property access on a
JavaScript object. -/
def getKV {α : Type} : List (String × α) → String → Option α
  | [], _ => none
  | e :: rest, k => if e.1 == k then some e.2 else getKV rest k

/-- Update of a string-keyed association list, mirroring property assignment
on a JavaScript object: the first matching key is overwritten in place, a
missing key is appended. -/
def setKV {α : Type} : List (String × α) → String → α → List (String × α)
  | [], k, v => [(k, v)]
  | e :: rest, k, v => if e.1 == k then (k, v) :: rest else e :: setKV rest k v

/-- Right-biased merge of two association lists, mirroring the object spread
form the source uses to combine header maps. -/
def mergeKV {α : Type} (m1 m2 : List (String × α)) : List (String × α) :=
  m2.foldl (fun acc e => setKV acc e.1 e.2) m1

/-- JavaScript truthiness of an optional string field: undefined and the
empty string are falsy, every other string is truthy. -/
def truthy : Option String → Bool
  | none => false
  | some s => s != ""

/-- Character-list core of startsWith. -/
def chStartsWith : List Char → List Char → Bool
  | _, [] => true
  | [], _ :: _ => false
  | c :: cs, d :: ds => c == d && chStartsWith cs ds

/-- Models String.prototype.startsWith. -/
def strStartsWith (s p : String) : Bool := chStartsWith s.data p.data

/-- ASCII uppercasing of one character. -/
def chUpper (c : Char) : Char :=
  if 97 ≤ c.toNat && c.toNat ≤ 122 then Char.ofNat (c.toNat - 32) else c

/-- Models String.prototype.toUpperCase on ASCII strings. -/
def strToUpper (s : String) : String := String.mk (s.data.map chUpper)

/-- Split a character list at the first occurrence of a separator; the second
component is none when the separator does not occur. -/
def splitFirstChar (sep : Char) : List Char → List Char × Option (List Char)
  | [] => ([], none)
  | c :: rest =>
    if c == sep then ([], some rest)
    else
      let r := splitFirstChar sep rest
      (c :: r.1, r.2)

/-- Split a character list on every occurrence of a separator. -/
def chSplitOnChar (sep : Char) : List Char → List (List Char)
  | [] => [[]]
  | c :: rest =>
    let r := chSplitOnChar sep rest
    if c == sep then [] :: r
    else
      match r with
      | [] => [[c]]
      | g :: gs => (c :: g) :: gs

/-- Split a character list at the first scheme separator, yielding the scheme
characters and the remainder. -/
def splitSchemeAux : List Char → Option (List Char × List Char)
  | [] => none
  | ':' :: '/' :: '/' :: rest => some ([], rest)
  | c :: rest =>
    match splitSchemeAux rest with
    | none => none
    | some pr => some (c :: pr.1, pr.2)

/-- Modelled from the spec: the structured URL object produced by the host
platform URL parser, restricted to the components the request builder reads
and writes (scheme, host, path, query parameters). -/
structure URLObject where
  scheme : String
  host : String
  pathname : String
  searchParams : List (String × String)
  deriving DecidableEq, Repr

/-- The URL origin: scheme plus host. -/
def URLObject.origin (u : URLObject) : String := u.scheme ++ "://" ++ u.host

/-- Serialize query pairs as a query string. -/
def joinPairs : List (String × String) → String
  | [] => ""
  | [e] => e.1 ++ "=" ++ e.2
  | e :: rest => e.1 ++ "=" ++ e.2 ++ "&" ++ joinPairs rest

/-- Serialize the URL object back to a string. -/
def URLObject.toString (u : URLObject) : String :=
  URLObject.origin u ++ u.pathname ++
    (if u.searchParams.isEmpty then "" else "?" ++ joinPairs u.searchParams)

/-- Parse the query-string part of a URL into key-value pairs. -/
def parseSearchChars : Option (List Char) → List (String × String)
  | none => []
  | some [] => []
  | some (c :: cs) =>
    (chSplitOnChar '&' (c :: cs)).map (fun kv =>
      let e := splitFirstChar '=' kv
      (String.mk e.1, match e.2 with | none => "" | some v => String.mk v))

/-- Modelled from the spec: parsing an absolute URL string into the structured
URL object; fails, like the platform parser, when no scheme separator or no
host is present. -/
def parseURL (s : String) : Option URLObject :=
  match splitSchemeAux s.data with
  | none => none
  | some pr =>
    let afterQ := splitFirstChar '?' pr.2
    let hostPath := splitFirstChar '/' afterQ.1
    if pr.1.isEmpty || hostPath.1.isEmpty then none
    else
      some { scheme := String.mk pr.1, host := String.mk hostPath.1,
             pathname := match hostPath.2 with | none => "/" | some rest => "/" ++ String.mk rest,
             searchParams := parseSearchChars afterQ.2 }

/-- A JavaScript value carried in a query or body mapping: either undefined or
a string scalar (richer value shapes are not exercised by the claims). -/
inductive JVal where
  | undef : JVal
  | str : String → JVal
  deriving DecidableEq, Repr

/-- A request body: a raw byte buffer or a key-value mapping. -/
inductive RBody where
  | buffer : List Nat → RBody
  | map : List (String × JVal) → RBody
  deriving DecidableEq, Repr

/-- An encoded wire body: serialized text, or bytes passed through. -/
inductive BodyOut where
  | str : String → BodyOut
  | buf : List Nat → BodyOut
  deriving DecidableEq, Repr

/-- The three body-encoding regimes. -/
inductive BodyType where
  | json
  | url
  | multipart
  deriving DecidableEq, Repr

/-- The entries of a mapping whose values are defined strings. -/
def definedEntries (kv : List (String × JVal)) : List (String × String) :=
  kv.filterMap (fun e => match e.2 with | JVal.str s => some (e.1, s) | JVal.undef => none)

/-- Modelled from the spec: formatQuery converts the query mapping to a
string-keyed mapping, omitting undefined values (array joining is not
exercised by the claims; the model carries scalar values only). -/
def formatQueryToString (q : List (String × JVal)) : List (String × String) :=
  definedEntries q

/-- Modelled from the spec: trimUndefined removes the keys whose value is
undefined; a raw buffer body is left untouched. -/
def trimUndefinedProperties : RBody → RBody
  | RBody.buffer bs => RBody.buffer bs
  | RBody.map kv => RBody.map (kv.filter (fun e => !(e.2 == JVal.undef)))

/-- Modelled from the spec: mergeForSignature builds the union of query and
body with body keys winning on collision; a raw buffer contributes no keys. -/
def mergeQueryAndBodyForOAuth (query : List (String × String)) (body : RBody) :
    List (String × String) :=
  match body with
  | RBody.buffer _ => query
  | RBody.map kv => mergeKV query (definedEntries kv)

/-- Modelled from the spec: detectBodyType infers the encoding from the URL
shape: the media-upload host maps to multipart, v2-style endpoints map to
json, anything else to url-encoded. -/
def autoDetectBodyType (u : URLObject) : BodyType :=
  if u.host == "upload.twitter.com" then BodyType.multipart
  else if strStartsWith u.pathname "/2/" then BodyType.json
  else BodyType.url

/-- Serialize flat string fields as a JSON object body. -/
def jsonFields : List (String × String) → String
  | [] => ""
  | [e] => "\"" ++ e.1 ++ "\":\"" ++ e.2 ++ "\""
  | e :: rest => "\"" ++ e.1 ++ "\":\"" ++ e.2 ++ "\"," ++ jsonFields rest

/-- Modelled from the spec: the json body encoding, on flat string fields. -/
def jsonEncode (kv : List (String × String)) : String :=
  "\x7b" ++ jsonFields kv ++ "\x7d"

/-- Modelled from the spec: the url-encoded body encoding (percent escaping is
not exercised by the claims). -/
def formUrlEncode (kv : List (String × String)) : String := joinPairs kv

/-- Serialize fields as multipart parts with a fixed boundary. -/
def multipartFields : List (String × String) → String
  | [] => ""
  | e :: rest =>
    "--form-data-boundary\r\nname=" ++ e.1 ++ "\r\n\r\n" ++ e.2 ++ "\r\n" ++ multipartFields rest

/-- Modelled from the spec: the multipart body encoding, with a fixed
boundary (the model holds randomness constant). -/
def multipartEncode (kv : List (String × String)) : String :=
  multipartFields kv ++ "--form-data-boundary--"

/-- The content-type header value attached for each encoding. -/
def bodyContentType : BodyType → String
  | BodyType.json => "application/json;charset=UTF-8"
  | BodyType.url => "application/x-www-form-urlencoded"
  | BodyType.multipart => "multipart/form-data;boundary=form-data-boundary"

/-- Dispatch a mapping body to the chosen text encoding. -/
def encodeBodyString (kv : List (String × String)) : BodyType → String
  | BodyType.json => jsonEncode kv
  | BodyType.url => formUrlEncode kv
  | BodyType.multipart => multipartEncode kv

/-- Modelled from the spec: encodeBody serializes a mapping body according to
the chosen encoding and sets the matching content-type header; a raw buffer
passes through untouched; an empty mapping yields no body. Returns the body
together with the updated header map (the header update models the in-place
mutation the source performs on the header object it was handed). -/
def constructBodyParams (body : RBody) (headers : List (String × String)) (mode : BodyType) :
    Option BodyOut × List (String × String) :=
  match body with
  | RBody.buffer bs => (some (BodyOut.buf bs), headers)
  | RBody.map kv =>
    let ds := definedEntries kv
    if ds.isEmpty then (none, headers)
    else (some (BodyOut.str (encodeBodyString ds mode)),
          setKV headers "content-type" (bodyContentType mode))

/-- Strip a literal pattern from the front of a character list. -/
def stripPfxChars : List Char → List Char → Option (List Char)
  | [], rest => some rest
  | _ :: _, [] => none
  | p :: ps, c :: cs => if c == p then stripPfxChars ps cs else none

/-- Replace every occurrence of a pattern in a character list, with fuel
bounding the scan. -/
def chReplaceFuel (pat rep : List Char) : Nat → List Char → List Char
  | _, [] => []
  | 0, cs => cs
  | Nat.succ n, c :: rest =>
    match stripPfxChars pat (c :: rest) with
    | some rem => rep ++ chReplaceFuel pat rep n rem
    | none => c :: chReplaceFuel pat rep n rest

/-- Modelled from the spec: substitute named path parameters into the URL
path, replacing each colon-marked name with the supplied value. -/
def applyRequestParametersToUrl (u : URLObject) (ps : List (String × String)) : URLObject :=
  { u with pathname := ps.foldl (fun path e =>
      String.mk (chReplaceFuel (':' :: e.1.data) e.2.data path.data.length path.data)) u.pathname }

/-- Modelled from the spec: carry the query-string parameters already present
on the URL into the query mapping and clear the URL query string. -/
def moveUrlQueryParamsIntoObject (u : URLObject) (query : List (String × String)) :
    URLObject × List (String × String) :=
  ({ u with searchParams := [] }, mergeKV query u.searchParams)

/-- Modelled from the spec: write the final query mapping into the URL query
component. -/
def addQueryParamsToUrl (u : URLObject) (query : List (String × String)) : URLObject :=
  { u with searchParams := query }

/-- The base64 alphabet. -/
def base64Alphabet : List Char :=
  "ABCDEFGHIJKLMNOPQRSTUVWXYZabcdefghijklmnopqrstuvwxyz0123456789+/".data

/-- The base64 digit for a 6-bit value. -/
def b64c (n : Nat) : Char := base64Alphabet.getD n '='

/-- Standard base64 of a byte list. -/
def base64EncodeBytes : List Nat → String
  | [] => ""
  | [a] => String.mk [b64c (a / 4), b64c (a % 4 * 16)] ++ "=="
  | [a, b] => String.mk [b64c (a / 4), b64c (a % 4 * 16 + b / 16), b64c (b % 16 * 4)] ++ "="
  | a :: b :: c2 :: rest =>
    String.mk [b64c (a / 4), b64c (a % 4 * 16 + b / 16), b64c (b % 16 * 4 + c2 / 64),
               b64c (c2 % 64)] ++ base64EncodeBytes rest

/-- Modelled from the spec: the OAuth2 client-credentials basic header value,
base64 of clientId:clientSecret. -/
def getAuthHeader (clientId clientSecret : String) : String :=
  base64EncodeBytes ((clientId ++ ":" ++ clientSecret).data.map Char.toNat)

/-- The OAuth1 helper, carrying the consumer key pair it was constructed
with; its signing behavior is external and abstracted by SignFn. -/
structure OAuth1Helper where
  consumerKey : String
  consumerSecret : String
  deriving DecidableEq, Repr

/-- The credential and settings fields of the request-maker class. -/
structure ClientRequestMaker where
  bearerToken : Option String := none
  consumerToken : Option String := none
  consumerSecret : Option String := none
  accessToken : Option String := none
  accessSecret : Option String := none
  basicToken : Option String := none
  clientId : Option String := none
  clientSecret : Option String := none
  oauth : Option OAuth1Helper := none
  settingsDisableCompression : Bool := false

/-- Models buildOAuth: constructing the OAuth1 helper fails unless both
consumer tokens are set and non-empty. -/
def buildOAuth (c : ClientRequestMaker) : Except String OAuth1Helper :=
  if !(truthy c.consumerSecret) || !(truthy c.consumerToken) then
    Except.error "Invalid consumer tokens"
  else
    Except.ok { consumerKey := c.consumerToken.getD "", consumerSecret := c.consumerSecret.getD "" }

/-- Observes whether an Except value is a success. -/
def exceptIsOk {ε α : Type} : Except ε α → Bool
  | Except.ok _ => true
  | Except.error _ => false

/-- Models getOAuthAccessTokens: the key-secret pair when both access tokens
are set and non-empty, nothing otherwise. -/
def getOAuthAccessTokens (c : ClientRequestMaker) : Option (String × String) :=
  if truthy c.accessSecret && truthy c.accessToken then
    some (c.accessToken.getD "", c.accessSecret.getD "")
  else none

/-- The input of an OAuth1 signature: the absolute URL, the method, and the
data set the signature is computed over. -/
structure SignInput where
  url : String
  method : String
  data : List (String × String)
  deriving DecidableEq, Repr

/-- The external OAuth1 signer, authorize followed by toHeader, abstracted as
a function from the signature input and the optional access-token pair to the
header entries it emits. -/
def SignFn : Type := SignInput → Option (String × String) → List (String × String)

/-- The argument record of writeAuthHeaders. -/
structure WriteAuthHeadersArgs where
  headers : List (String × String)
  bodyInSignature : Bool
  url : URLObject
  method : String
  query : List (String × String)
  body : RBody

/-- Models writeAuthHeaders: pick exactly one authentication scheme by the
priority chain bearer, basic, client credentials, OAuth1, none; in the OAuth1
case the signature data is the merged query and body when bodyInSignature is
set, the query alone otherwise. -/
def writeAuthHeaders (c : ClientRequestMaker) (signer : SignFn) (a : WriteAuthHeadersArgs) :
    List (String × String) :=
  if truthy c.bearerToken then
    setKV a.headers "Authorization" ("Bearer " ++ c.bearerToken.getD "")
  else if truthy c.basicToken then
    setKV a.headers "Authorization" ("Basic " ++ c.basicToken.getD "")
  else if truthy c.clientId && truthy c.clientSecret then
    setKV a.headers "Authorization" ("Basic " ++ getAuthHeader (c.clientId.getD "") (c.clientSecret.getD ""))
  else if truthy c.consumerSecret && c.oauth.isSome then
    let data := if a.bodyInSignature then mergeQueryAndBodyForOAuth a.query a.body else a.query
    mergeKV a.headers
      (signer { url := URLObject.toString a.url, method := a.method, data := data }
        (getOAuthAccessTokens c))
  else a.headers

/-- The request parameters accepted by the request maker, including the
stream-only options. -/
structure RequestParams where
  url : String
  method : String
  query : List (String × JVal) := []
  body : RBody := RBody.map []
  headers : Option (List (String × String)) := none
  forceBodyMode : Option BodyType := none
  enableAuth : Option Bool := none
  params : Option (List (String × String)) := none
  timeout : Option Nat := none
  enableRateLimitSave : Option Bool := none
  disableCompression : Option Bool := none
  autoConnect : Option Bool := none
  payloadIsError : Option Bool := none

/-- The body-carrying HTTP methods. -/
def BODY_METHODS : List String := ["POST", "PUT", "PATCH"]

/-- The result of getHttpRequestArgs. The first five fields are the returned
descriptor. The two caller fields model, by explicit state passing, the
post-call state of the mutable objects the caller supplied: callerHeaders is
the header object passed in (meaningful when one was supplied) and callerBody
is the body object passed in. -/
structure HttpRequestArgsResult where
  rawUrl : String
  url : URLObject
  method : String
  headers : List (String × String)
  body : Option BodyOut
  callerHeaders : List (String × String)
  callerBody : RBody
  deriving DecidableEq, Repr

/-- The descriptor pipeline of getHttpRequestArgs after URL parsing: method
uppercasing, user-agent injection, rate-limit key capture, path-parameter
substitution, query formatting and relocation, body trimming, body-type
resolution, auth headers, body encoding, and final query write-back. -/
def buildArgs (c : ClientRequestMaker) (signer : SignFn) (p : RequestParams)
    (urlObject0 : URLObject) : HttpRequestArgsResult :=
  let method := strToUpper p.method
  let headers0 := p.headers.getD []
  let headers1 :=
    if truthy (getKV headers0 "x-user-agent") then headers0
    else setKV headers0 "x-user-agent" "Node.twitter-api-v2"
  let rawUrl := URLObject.origin urlObject0 ++ urlObject0.pathname
  let urlObject1 :=
    match p.params with
    | some ps => applyRequestParametersToUrl urlObject0 ps
    | none => urlObject0
  let moved := moveUrlQueryParamsIntoObject urlObject1 (formatQueryToString p.query)
  let urlObject2 := moved.1
  let query := moved.2
  let rawBody := trimUndefinedProperties p.body
  let bodyType := p.forceBodyMode.getD (autoDetectBodyType urlObject2)
  let headers2 :=
    if p.enableAuth == some false then headers1
    else
      let bodyInSignature := BODY_METHODS.contains method && bodyType == BodyType.url
      writeAuthHeaders c signer
        { headers := headers1, bodyInSignature := bodyInSignature, url := urlObject2,
          method := method, query := query, body := rawBody }
  let bodyPair :=
    if BODY_METHODS.contains method then constructBodyParams rawBody headers2 bodyType
    else (none, headers2)
  let body :=
    match bodyPair.1 with
    | some (BodyOut.str s) => if s == "" then none else some (BodyOut.str s)
    | other => other
  let urlObject3 := addQueryParamsToUrl urlObject2 query
  { rawUrl := rawUrl, url := urlObject3, method := method, headers := bodyPair.2, body := body,
    callerHeaders := if p.enableAuth == some false then bodyPair.2 else headers1,
    callerBody := rawBody }

/-- The string the URL is resolved from: a protocol is prepended when the
input does not start with http. -/
def resolveUrl (url : String) : String :=
  if strStartsWith url "http" then url else "https://" ++ url

/-- Models getHttpRequestArgs: resolve the URL scheme, parse the URL, and run
the descriptor pipeline; a URL the platform parser rejects fails the call. -/
def getHttpRequestArgs (c : ClientRequestMaker) (signer : SignFn) (p : RequestParams) :
    Option HttpRequestArgsResult :=
  (parseURL (resolveUrl p.url)).map (buildArgs c signer p)

/-- Modelled from the spec: a rate-limit snapshot: limit, remaining, and the
reset epoch. -/
structure TwitterRateLimit where
  limit : Nat
  remaining : Nat
  reset : Nat
  deriving DecidableEq, Repr

/-- Models saveRateLimit: overwrite the snapshot stored under the endpoint
key. -/
def saveRateLimit (store : List (String × TwitterRateLimit)) (originalUrl : String)
    (rl : TwitterRateLimit) : List (String × TwitterRateLimit) :=
  setKV store originalUrl rl

/-- Modelled from the spec: RateLimitStore.get returns the last snapshot saved
under the key. -/
def getRateLimit (store : List (String × TwitterRateLimit)) (k : String) :
    Option TwitterRateLimit :=
  getKV store k

/-- The request data handed to the external stream constructor. -/
structure StreamRequestData where
  url : URLObject
  method : String
  headers : List (String × String)
  body : Option BodyOut
  rateLimitSaverKey : Option String
  payloadIsError : Option Bool
  compression : Bool
  deriving DecidableEq, Repr

/-- Modelled from the spec: the external stream handle; connect starts the
connection, modeled by the connected flag. -/
structure TweetStream where
  requestData : StreamRequestData
  connected : Bool
  deriving DecidableEq, Repr

/-- Connecting the stream. -/
def TweetStream.connect (s : TweetStream) : TweetStream := { s with connected := true }

/-- The two shapes sendStream returns: the unconnected handle itself, or a
promise resolving to the connected handle. -/
inductive SendStreamResult where
  | sync : TweetStream → SendStreamResult
  | async : TweetStream → SendStreamResult
  deriving DecidableEq, Repr

/-- The length of an encoded body. -/
def bodyLength : BodyOut → Nat
  | BodyOut.str s => s.data.length
  | BodyOut.buf bs => bs.length

/-- Models sendStream: build the descriptor, assemble the stream request data
(adding the body length header when a body is present, modelled from the
spec), construct the stream handle, and either return it unconnected or
trigger the connection, depending on autoConnect. -/
def sendStream (c : ClientRequestMaker) (signer : SignFn) (p : RequestParams) :
    Option SendStreamResult :=
  (getHttpRequestArgs c signer p).map (fun args =>
    let headersWithLen :=
      match args.body with
      | some b => setKV args.headers "content-length" (Nat.repr (bodyLength b))
      | none => args.headers
    let enableRateLimitSave := !(p.enableRateLimitSave == some false)
    let isCompressionDisabled := (p.disableCompression == some true) || c.settingsDisableCompression
    let requestData : StreamRequestData :=
      { url := args.url, method := args.method, headers := headersWithLen, body := args.body,
        rateLimitSaverKey := if enableRateLimitSave then some args.rawUrl else none,
        payloadIsError := p.payloadIsError, compression := !isCompressionDisabled }
    let stream : TweetStream := { requestData := requestData, connected := false }
    if p.autoConnect == some false then SendStreamResult.sync stream
    else SendStreamResult.async (TweetStream.connect stream))

/-- Observes a sendStream result: whether it is the async shape, and whether
the carried stream is connected. -/
def sendStreamView : SendStreamResult → Bool × Bool
  | SendStreamResult.sync st => (false, st.connected)
  | SendStreamResult.async st => (true, st.connected)

/-- Whether a URL string carries a scheme, for stating the specification
claim about scheme resolution. -/
def hasScheme (s : String) : Bool := (splitSchemeAux s.data).isSome

/-- A concrete signer for witnesses: emits one OAuth header recording the
method, the URL and the data set it was asked to sign. -/
def demoSigner : SignFn :=
  fun i _tok => [("Authorization", "OAuth " ++ i.method ++ " " ++ i.url ++ " " ++ joinPairs i.data)]

/-- A client holding only a bearer token. -/
def bearerClient : ClientRequestMaker := { bearerToken := some "XYZ" }

/-- A client holding OAuth1 consumer and access credentials. -/
def oauthClient : ClientRequestMaker :=
  { consumerToken := some "ck", consumerSecret := some "cs",
    accessToken := some "at", accessSecret := some "as",
    oauth := some { consumerKey := "ck", consumerSecret := "cs" } }

/-- A client whose bearer token is set to the empty string next to a basic
token. -/
def emptyBearerClient : ClientRequestMaker := { bearerToken := some "", basicToken := some "B" }

/-- Mapping over a present option. -/
theorem optMapSome {α β : Type} (f : α → β) (a : α) : Option.map f (some a) = some (f a) := rfl

/-- When the resolved URL parses, getHttpRequestArgs runs the pipeline on the
parsed object. -/
theorem getHttpRequestArgs_parse_some (c : ClientRequestMaker) (signer : SignFn)
    (p : RequestParams) (u0 : URLObject) (h : parseURL (resolveUrl p.url) = some u0) :
    getHttpRequestArgs c signer p = some (buildArgs c signer p u0) := by
  unfold getHttpRequestArgs
  rw [h]
  rfl

/-- Reading back the key just written. -/
theorem getKV_setKV_self {α : Type} (m : List (String × α)) (k : String) (v : α) :
    getKV (setKV m k v) k = some v := by
  induction m with
  | nil => simp [setKV, getKV]
  | cons e rest ih =>
    by_cases h : e.1 == k
    · simp [setKV, h, getKV]
    · simp [setKV, h, getKV, ih]

/-- Writing one key leaves every other key unchanged. -/
theorem getKV_setKV_ne {α : Type} (m : List (String × α)) (k : String) (v : α) (k2 : String)
    (h : ¬ k2 = k) : getKV (setKV m k v) k2 = getKV m k2 := by
  induction m with
  | nil =>
    simp [setKV, getKV]
    intro hkk
    exact absurd (by simpa using hkk.symm) h
  | cons e rest ih =>
    by_cases he : e.1 == k
    · have hek : e.1 = k := by simpa using he
      have hk2 : (k == k2) = false := by
        simp only [beq_eq_false_iff_ne]
        intro hx
        exact h hx.symm
      simp [setKV, he, getKV, hk2, hek]
    · simp [setKV, he, getKV, ih]

/-- The encoded body returned by the codec does not depend on the header map
it also updates. -/
theorem constructBodyParams_fst (b : RBody) (h1 h2 : List (String × String)) (m : BodyType) :
    (constructBodyParams b h1 m).1 = (constructBodyParams b h2 m).1 := by
  cases b with
  | buffer bs => rfl
  | map kv =>
    simp only [constructBodyParams]
    split <;> rfl

/-- The codec only touches the content-type header. -/
theorem getKV_constructBodyParams_snd (b : RBody) (h : List (String × String)) (m : BodyType)
    (k : String) (hk : ¬ k = "content-type") :
    getKV (constructBodyParams b h m).2 k = getKV h k := by
  cases b with
  | buffer bs => rfl
  | map kv =>
    simp only [constructBodyParams]
    split
    · rfl
    · exact getKV_setKV_ne h "content-type" (bodyContentType m) k hk

/-- Boolean form of the auth-enabled test. -/
theorem beqOptBool_false {o : Option Bool} (h : ¬ o = some false) : (o == some false) = false := by
  cases o with
  | none => rfl
  | some b =>
    cases b with
    | false => exact absurd rfl h
    | true => rfl

/-- The rate-limit key and the URL scheme of the built descriptor come from
the parsed URL before path-parameter substitution and query formatting. -/
theorem buildArgs_rawUrl_scheme (c : ClientRequestMaker) (signer : SignFn) (p : RequestParams)
    (u0 : URLObject) :
    (buildArgs c signer p u0).rawUrl = URLObject.origin u0 ++ u0.pathname ∧
    (buildArgs c signer p u0).url.scheme = u0.scheme := by
  constructor
  · rfl
  · cases hp : p.params with
    | none =>
      simp [buildArgs, addQueryParamsToUrl, moveUrlQueryParamsIntoObject,
        applyRequestParametersToUrl, hp]
    | some ps =>
      simp [buildArgs, addQueryParamsToUrl, moveUrlQueryParamsIntoObject,
        applyRequestParametersToUrl, hp]

/-- The encoded body of the built descriptor, characterized without any
reference to the signature function or the header map. -/
theorem buildArgs_body_char (c : ClientRequestMaker) (signer : SignFn) (p : RequestParams)
    (u0 : URLObject) :
    (buildArgs c signer p u0).body =
      (if strToUpper p.method ∈ BODY_METHODS then
        match trimUndefinedProperties p.body with
        | RBody.buffer bs => some (BodyOut.buf bs)
        | RBody.map kv =>
          if (definedEntries kv).isEmpty then none
          else
            if encodeBodyString (definedEntries kv)
                (p.forceBodyMode.getD (autoDetectBodyType
                  (moveUrlQueryParamsIntoObject
                    (match p.params with
                     | some ps => applyRequestParametersToUrl u0 ps
                     | none => u0)
                    (formatQueryToString p.query)).1)) == "" then none
            else some (BodyOut.str (encodeBodyString (definedEntries kv)
                (p.forceBodyMode.getD (autoDetectBodyType
                  (moveUrlQueryParamsIntoObject
                    (match p.params with
                     | some ps => applyRequestParametersToUrl u0 ps
                     | none => u0)
                    (formatQueryToString p.query)).1))))
      else none) := by
  by_cases hc : strToUpper p.method ∈ BODY_METHODS
  · cases htrim : trimUndefinedProperties p.body with
    | buffer bs => simp [buildArgs, hc, htrim, constructBodyParams]
    | map kv =>
      by_cases hd : (definedEntries kv).isEmpty
      · simp [buildArgs, hc, htrim, constructBodyParams, hd]
      · simp [buildArgs, hc, htrim, constructBodyParams, hd]
  · simp [buildArgs, hc]

/-- C6: constructing the OAuth1 helper succeeds exactly when both a consumer
key and a consumer secret are configured (set and non-empty); otherwise it
throws immediately at construction time, so a client requiring OAuth1 signing
is never silently left unauthenticated by a half-configured consumer pair. -/
theorem c6_buildOAuth_guard (c : ClientRequestMaker) :
    exceptIsOk (buildOAuth c) = (truthy c.consumerSecret && truthy c.consumerToken) := by
  by_cases h1 : truthy c.consumerSecret <;> by_cases h2 : truthy c.consumerToken <;>
    simp [buildOAuth, exceptIsOk, h1, h2]

/-- C7: the rate-limit store is a last-write-wins overwrite map: after two
saves under the same key the second snapshot is returned, never the first and
never a merge, and a save leaves every other key untouched. -/
theorem c7_rate_limit_last_write_wins (st : List (String × TwitterRateLimit)) (k : String)
    (s1 s2 : TwitterRateLimit) :
    getRateLimit (saveRateLimit (saveRateLimit st k s1) k s2) k = some s2 ∧
    ∀ k2, ¬ k2 = k → getRateLimit (saveRateLimit st k s2) k2 = getRateLimit st k2 := by
  constructor
  · simp [getRateLimit, saveRateLimit, getKV_setKV_self]
  · intro k2 hk
    simp [getRateLimit, saveRateLimit, getKV_setKV_ne _ _ _ _ hk]

/-- Witness for C7 at concrete snapshots and keys. -/
theorem c7_witness :
    getRateLimit (saveRateLimit (saveRateLimit [] "https://api.twitter.com/2/tweets"
        { limit := 15, remaining := 14, reset := 100 }) "https://api.twitter.com/2/tweets"
        { limit := 15, remaining := 2, reset := 200 }) "https://api.twitter.com/2/tweets" =
      some { limit := 15, remaining := 2, reset := 200 } ∧
    getRateLimit (saveRateLimit [] "https://api.twitter.com/2/tweets"
        { limit := 15, remaining := 2, reset := 200 }) "https://api.twitter.com/2/users" =
      getRateLimit [] "https://api.twitter.com/2/users" :=
  ⟨(c7_rate_limit_last_write_wins [] "https://api.twitter.com/2/tweets"
      { limit := 15, remaining := 14, reset := 100 } { limit := 15, remaining := 2, reset := 200 }).1,
   (c7_rate_limit_last_write_wins [] "https://api.twitter.com/2/tweets"
      { limit := 15, remaining := 14, reset := 100 } { limit := 15, remaining := 2, reset := 200 }).2
      "https://api.twitter.com/2/users" (by decide)⟩

/-- C4: when the uppercased method is not one of the body-carrying methods,
the descriptor never carries a body, whatever body mapping was supplied. -/
theorem c4_no_body_outside_body_methods (c : ClientRequestMaker) (signer : SignFn)
    (p : RequestParams) (u0 : URLObject) (hu : parseURL (resolveUrl p.url) = some u0)
    (hm : BODY_METHODS.contains (strToUpper p.method) = false) :
    ((getHttpRequestArgs c signer p).map fun r => r.body) = some none := by
  rw [getHttpRequestArgs_parse_some c signer p u0 hu, optMapSome]
  have hm2 : ¬ strToUpper p.method ∈ BODY_METHODS := by simpa using hm
  simp [buildArgs, hm2]

/-- Witness for C4: a GET request with a non-empty body mapping yields a
descriptor without a body. -/
theorem c4_witness :
    BODY_METHODS.contains (strToUpper "get") = false ∧
    ((getHttpRequestArgs bearerClient demoSigner
        { url := "https://api.twitter.com/2/tweets/search/recent", method := "get",
          body := RBody.map [("a", JVal.str "1")] }).map fun r => r.body) = some none :=
  ⟨by decide,
   c4_no_body_outside_body_methods bearerClient demoSigner
     { url := "https://api.twitter.com/2/tweets/search/recent", method := "get",
       body := RBody.map [("a", JVal.str "1")] }
     { scheme := "https", host := "api.twitter.com", pathname := "/2/tweets/search/recent",
       searchParams := [] }
     (by decide) (by decide)⟩

/-- C5: descriptor construction is deterministic up to the signer: holding
the clock and nonce constant means fixing the signature function, and the
returned rawUrl, method and body do not depend on that function at all, so
two runs agree on them and only signature-dependent header fields can
differ. -/
theorem c5_deterministic_up_to_signer (c : ClientRequestMaker) (s1 s2 : SignFn)
    (p : RequestParams) :
    ((getHttpRequestArgs c s1 p).map fun r => (r.rawUrl, r.method, r.body)) =
    ((getHttpRequestArgs c s2 p).map fun r => (r.rawUrl, r.method, r.body)) := by
  unfold getHttpRequestArgs
  cases hp : parseURL (resolveUrl p.url) with
  | none => rfl
  | some u0 =>
    simp only [optMapSome]
    have h1 : (buildArgs c s1 p u0).rawUrl = (buildArgs c s2 p u0).rawUrl := by
      rw [(buildArgs_rawUrl_scheme c s1 p u0).1, (buildArgs_rawUrl_scheme c s2 p u0).1]
    have h3 : (buildArgs c s1 p u0).body = (buildArgs c s2 p u0).body := by
      rw [buildArgs_body_char c s1 p u0, buildArgs_body_char c s2 p u0]
    simp only [h1, h3]
    rfl

/-- C2 counterexample: a credential set whose bearer token is set (to the
empty string) next to a basic token produces a Basic Authorization header,
not the Bearer one, refuting the claim for every set bearer token. -/
theorem c2_counterexample :
    emptyBearerClient.bearerToken = some "" ∧
    ((getHttpRequestArgs emptyBearerClient demoSigner
        { url := "https://api.twitter.com/2/tweets", method := "get" }).map
      fun r => getKV r.headers "Authorization") = some (some "Basic B") ∧
    ¬ "Basic B" = "Bearer " ++ "" := by
  refine ⟨rfl, ?_, by decide⟩
  decide

/-- C2 amended: for every credential set whose bearer token is set to a
non-empty string, and every request built with auth enabled, the produced
Authorization header is exactly Bearer followed by that token, regardless of
any other credentials being set. -/
theorem c2_bearer_always_wins (c : ClientRequestMaker) (signer : SignFn) (p : RequestParams)
    (t : String) (u0 : URLObject) (ht : c.bearerToken = some t) (hne : ¬ t = "")
    (hauth : ¬ p.enableAuth = some false) (hu : parseURL (resolveUrl p.url) = some u0) :
    ((getHttpRequestArgs c signer p).map fun r => getKV r.headers "Authorization") =
      some (some ("Bearer " ++ t)) := by
  rw [getHttpRequestArgs_parse_some c signer p u0 hu, optMapSome]
  have htr : truthy (some t) = true := by simpa [truthy] using hne
  have he := beqOptBool_false hauth
  by_cases hc : strToUpper p.method ∈ BODY_METHODS
  · simp [buildArgs, writeAuthHeaders, he, htr, ht, hc,
      getKV_constructBodyParams_snd _ _ _ "Authorization" (by decide), getKV_setKV_self]
  · simp [buildArgs, writeAuthHeaders, he, htr, ht, hc, getKV_setKV_self]

/-- Witness for C2 amended: a client holding a bearer token and OAuth1-style
extra fields still emits the Bearer header on a POST with a body. -/
theorem c2_witness :
    ((getHttpRequestArgs
        { bearerToken := some "XYZ", basicToken := some "B",
          consumerToken := some "ck", consumerSecret := some "cs",
          oauth := some { consumerKey := "ck", consumerSecret := "cs" } } demoSigner
        { url := "https://api.twitter.com/2/tweets", method := "post",
          body := RBody.map [("text", JVal.str "hi")] }).map
      fun r => getKV r.headers "Authorization") = some (some ("Bearer " ++ "XYZ")) :=
  c2_bearer_always_wins
    { bearerToken := some "XYZ", basicToken := some "B",
      consumerToken := some "ck", consumerSecret := some "cs",
      oauth := some { consumerKey := "ck", consumerSecret := "cs" } } demoSigner
    { url := "https://api.twitter.com/2/tweets", method := "post",
      body := RBody.map [("text", JVal.str "hi")] } "XYZ"
    { scheme := "https", host := "api.twitter.com", pathname := "/2/tweets", searchParams := [] }
    rfl (by decide) (by decide) (by decide)

/-- C3 counterexample: the input ftp://example.com carries a scheme, yet the
builder does not leave it untouched: the stored scheme of the descriptor URL
is https, not ftp, because the source only tests whether the string starts
with http. -/
theorem c3_counterexample :
    hasScheme "ftp://example.com" = true ∧
    ((getHttpRequestArgs bearerClient demoSigner
        { url := "ftp://example.com", method := "get" }).map fun r => r.url.scheme) =
      some "https" ∧
    ¬ "https" = "ftp" := by
  refine ⟨by decide, ?_, by decide⟩
  decide

/-- C3 amended: an input URL starting with http is used untouched, and every
other input (whether or not it carries a scheme) gets https:// prepended; the
descriptor is then built from the parse of exactly that resolved string. -/
theorem c3_scheme_resolution (c : ClientRequestMaker) (signer : SignFn) (p : RequestParams)
    (u0 : URLObject) :
    (strStartsWith p.url "http" = true → parseURL p.url = some u0 →
      ((getHttpRequestArgs c signer p).map fun r => (r.rawUrl, r.url.scheme)) =
        some (URLObject.origin u0 ++ u0.pathname, u0.scheme)) ∧
    (strStartsWith p.url "http" = false → parseURL ("https://" ++ p.url) = some u0 →
      ((getHttpRequestArgs c signer p).map fun r => (r.rawUrl, r.url.scheme)) =
        some (URLObject.origin u0 ++ u0.pathname, u0.scheme)) := by
  constructor
  · intro hs hp
    have hu : parseURL (resolveUrl p.url) = some u0 := by simpa [resolveUrl, hs] using hp
    rw [getHttpRequestArgs_parse_some c signer p u0 hu, optMapSome,
      (buildArgs_rawUrl_scheme c signer p u0).1, (buildArgs_rawUrl_scheme c signer p u0).2]
  · intro hs hp
    have hu : parseURL (resolveUrl p.url) = some u0 := by simpa [resolveUrl, hs] using hp
    rw [getHttpRequestArgs_parse_some c signer p u0 hu, optMapSome,
      (buildArgs_rawUrl_scheme c signer p u0).1, (buildArgs_rawUrl_scheme c signer p u0).2]

/-- Witness for C3 amended: an http-starting URL is kept, a scheme-less URL
is prefixed; the two descriptors agree. -/
theorem c3_witness :
    ((getHttpRequestArgs bearerClient demoSigner
        { url := "https://api.twitter.com/2/tweets", method := "get" }).map
      fun r => (r.rawUrl, r.url.scheme)) = some ("https://api.twitter.com/2/tweets", "https") ∧
    ((getHttpRequestArgs bearerClient demoSigner
        { url := "api.twitter.com/2/tweets", method := "get" }).map
      fun r => (r.rawUrl, r.url.scheme)) = some ("https://api.twitter.com/2/tweets", "https") :=
  ⟨(c3_scheme_resolution bearerClient demoSigner
      { url := "https://api.twitter.com/2/tweets", method := "get" }
      { scheme := "https", host := "api.twitter.com", pathname := "/2/tweets", searchParams := [] }).1
      (by decide) (by decide),
   (c3_scheme_resolution bearerClient demoSigner
      { url := "api.twitter.com/2/tweets", method := "get" }
      { scheme := "https", host := "api.twitter.com", pathname := "/2/tweets", searchParams := [] }).2
      (by decide) (by decide)⟩

/-- C10: the rate-limit key is the origin plus path of the URL as parsed,
before path-parameter substitution and query handling: two calls to the same
templated URL that differ in path-parameter values, query, body or any other
option return the identical rawUrl, the unsubstituted template. -/
theorem c10_rawUrl_is_unsubstituted_template (c : ClientRequestMaker) (signer : SignFn)
    (p1 p2 : RequestParams) (u0 : URLObject) (hurl : p2.url = p1.url)
    (hu : parseURL (resolveUrl p1.url) = some u0) :
    ((getHttpRequestArgs c signer p1).map fun r => r.rawUrl) =
      some (URLObject.origin u0 ++ u0.pathname) ∧
    ((getHttpRequestArgs c signer p2).map fun r => r.rawUrl) =
      some (URLObject.origin u0 ++ u0.pathname) := by
  have hu2 : parseURL (resolveUrl p2.url) = some u0 := by rw [hurl]; exact hu
  constructor
  · rw [getHttpRequestArgs_parse_some c signer p1 u0 hu, optMapSome,
      (buildArgs_rawUrl_scheme c signer p1 u0).1]
  · rw [getHttpRequestArgs_parse_some c signer p2 u0 hu2, optMapSome,
      (buildArgs_rawUrl_scheme c signer p2 u0).1]

/-- Witness for C10: two calls to the templated users timeline URL with
different path parameters, query and body share the rawUrl holding the
unsubstituted :id template. -/
theorem c10_witness :
    ((getHttpRequestArgs bearerClient demoSigner
        { url := "https://api.twitter.com/2/users/:id/tweets", method := "get",
          params := some [("id", "123")], query := [("max_results", JVal.str "5")] }).map
      fun r => r.rawUrl) = some (URLObject.origin
        { scheme := "https", host := "api.twitter.com", pathname := "/2/users/:id/tweets",
          searchParams := [] } ++ "/2/users/:id/tweets") ∧
    ((getHttpRequestArgs bearerClient demoSigner
        { url := "https://api.twitter.com/2/users/:id/tweets", method := "get",
          params := some [("id", "456")], body := RBody.map [("x", JVal.str "1")] }).map
      fun r => r.rawUrl) = some (URLObject.origin
        { scheme := "https", host := "api.twitter.com", pathname := "/2/users/:id/tweets",
          searchParams := [] } ++ "/2/users/:id/tweets") :=
  c10_rawUrl_is_unsubstituted_template bearerClient demoSigner
    { url := "https://api.twitter.com/2/users/:id/tweets", method := "get",
      params := some [("id", "123")], query := [("max_results", JVal.str "5")] }
    { url := "https://api.twitter.com/2/users/:id/tweets", method := "get",
      params := some [("id", "456")], body := RBody.map [("x", JVal.str "1")] }
    { scheme := "https", host := "api.twitter.com", pathname := "/2/users/:id/tweets",
      searchParams := [] }
    rfl (by decide)

/-- C1: with auth enabled and a credential set holding no truthy bearer
token, no truthy basic token and no complete OAuth2 client pair, but an
OAuth1 signer and a consumer secret, the emitted headers are the base headers
merged with the signer output computed over the method, the absolute URL and
a data set that is the merged query and body exactly when the uppercased
method is body-carrying and the resolved body encoding is url-encoded, and
the query alone in every other case. -/
theorem c1_oauth1_signature_data (c : ClientRequestMaker) (signer : SignFn) (p : RequestParams)
    (u0 : URLObject)
    (hb : truthy c.bearerToken = false)
    (hba : truthy c.basicToken = false)
    (hcl : (truthy c.clientId && truthy c.clientSecret) = false)
    (hcs : truthy c.consumerSecret = true)
    (hoa : c.oauth.isSome = true)
    (hauth : ¬ p.enableAuth = some false)
    (hu : parseURL (resolveUrl p.url) = some u0) :
    ((getHttpRequestArgs c signer p).map fun r => r.headers) =
      some
        (let method := strToUpper p.method
         let headers0 := p.headers.getD []
         let headers1 :=
           if truthy (getKV headers0 "x-user-agent") then headers0
           else setKV headers0 "x-user-agent" "Node.twitter-api-v2"
         let urlObject1 :=
           match p.params with
           | some ps => applyRequestParametersToUrl u0 ps
           | none => u0
         let moved := moveUrlQueryParamsIntoObject urlObject1 (formatQueryToString p.query)
         let rawBody := trimUndefinedProperties p.body
         let bodyType := p.forceBodyMode.getD (autoDetectBodyType moved.1)
         let sigData :=
           if BODY_METHODS.contains method && bodyType == BodyType.url then
             mergeQueryAndBodyForOAuth moved.2 rawBody
           else moved.2
         let authed := mergeKV headers1
           (signer { url := URLObject.toString moved.1, method := method, data := sigData }
             (getOAuthAccessTokens c))
         if BODY_METHODS.contains method then (constructBodyParams rawBody authed bodyType).2
         else authed) := by
  rw [getHttpRequestArgs_parse_some c signer p u0 hu, optMapSome]
  have he := beqOptBool_false hauth
  have hclp : ¬ (truthy c.clientId = true ∧ truthy c.clientSecret = true) := by
    intro hpair
    rw [hpair.1, hpair.2] at hcl
    simp at hcl
  simp [buildArgs, writeAuthHeaders, he, hb, hba, hclp, hcs, hoa]
  by_cases hm : strToUpper p.method ∈ BODY_METHODS <;> simp [hm]

/-- Witness for C1: an OAuth1-only client on a v1.1 POST with default (url)
encoding signs the merged query and trimmed body, not the query alone. -/
theorem c1_witness :
    ((getHttpRequestArgs oauthClient demoSigner
        { url := "https://api.twitter.com/1.1/statuses/update.json", method := "post",
          query := [("q", JVal.str "x")],
          body := RBody.map [("status", JVal.str "hello"), ("skip", JVal.undef)] }).map
      fun r => r.headers) =
      some [("x-user-agent", "Node.twitter-api-v2"),
            ("Authorization",
             "OAuth POST https://api.twitter.com/1.1/statuses/update.json q=x&status=hello"),
            ("content-type", "application/x-www-form-urlencoded")] := by
  rw [c1_oauth1_signature_data oauthClient demoSigner
      { url := "https://api.twitter.com/1.1/statuses/update.json", method := "post",
        query := [("q", JVal.str "x")],
        body := RBody.map [("status", JVal.str "hello"), ("skip", JVal.undef)] }
      { scheme := "https", host := "api.twitter.com", pathname := "/1.1/statuses/update.json",
        searchParams := [] }
      (by decide) (by decide) (by decide) (by decide) (by decide) (by decide) (by decide)]
  decide

/-- C8: when autoConnect is explicitly false, sendStream returns the
unconnected stream handle synchronously without initiating a connection;
otherwise it immediately triggers the connection and returns a promise of
the connected handle. -/
theorem c8_autoConnect_dispatch (c : ClientRequestMaker) (signer : SignFn) (p : RequestParams)
    (u0 : URLObject) (hu : parseURL (resolveUrl p.url) = some u0) :
    (p.autoConnect = some false →
      ((sendStream c signer p).map sendStreamView) = some (false, false)) ∧
    (¬ p.autoConnect = some false →
      ((sendStream c signer p).map sendStreamView) = some (true, true)) := by
  have hs := getHttpRequestArgs_parse_some c signer p u0 hu
  constructor
  · intro ha
    unfold sendStream
    rw [hs, optMapSome]
    simp [ha, sendStreamView]
  · intro ha
    have he := beqOptBool_false ha
    unfold sendStream
    rw [hs, optMapSome]
    simp [he, sendStreamView, TweetStream.connect]

/-- Witness for C8: with autoConnect false the returned handle is the
unconnected synchronous one, and with autoConnect unset the returned promise
carries a connected handle. -/
theorem c8_witness :
    ((sendStream oauthClient demoSigner
        { url := "https://stream.twitter.com/1.1/statuses/filter.json", method := "get",
          autoConnect := some false }).map sendStreamView) = some (false, false) ∧
    ((sendStream oauthClient demoSigner
        { url := "https://stream.twitter.com/1.1/statuses/filter.json", method := "get" }).map
      sendStreamView) = some (true, true) :=
  ⟨(c8_autoConnect_dispatch oauthClient demoSigner
      { url := "https://stream.twitter.com/1.1/statuses/filter.json", method := "get",
        autoConnect := some false }
      { scheme := "https", host := "stream.twitter.com", pathname := "/1.1/statuses/filter.json",
        searchParams := [] } (by decide)).1 rfl,
   (c8_autoConnect_dispatch oauthClient demoSigner
      { url := "https://stream.twitter.com/1.1/statuses/filter.json", method := "get" }
      { scheme := "https", host := "stream.twitter.com", pathname := "/1.1/statuses/filter.json",
        searchParams := [] } (by decide)).2 (by decide)⟩

/-- C9 counterexample: a caller-supplied empty header mapping does not hold
the same keys after descriptor construction: the builder has written the
x-user-agent key into it. -/
theorem c9_counterexample :
    ((getHttpRequestArgs bearerClient demoSigner
        { url := "https://api.twitter.com/2/tweets", method := "get",
          headers := some [] }).map fun r => r.callerHeaders) =
      some [("x-user-agent", "Node.twitter-api-v2")] ∧
    ¬ ([("x-user-agent", "Node.twitter-api-v2")] : List (String × String)) = [] := by
  refine ⟨?_, by decide⟩
  decide

/-- C9 amended: the caller-supplied query mapping is never touched, and the
mutation of the caller-supplied objects is bounded: the headers mapping
changes at most at the x-user-agent and content-type keys, and the body
mapping loses exactly its undefined-valued keys. -/
theorem c9_caller_mutation_bounded (c : ClientRequestMaker) (signer : SignFn)
    (p : RequestParams) (h0 : List (String × String)) (u0 : URLObject)
    (hh : p.headers = some h0) (hu : parseURL (resolveUrl p.url) = some u0) :
    (∀ k, ¬ k = "x-user-agent" → ¬ k = "content-type" →
      ((getHttpRequestArgs c signer p).map fun r => getKV r.callerHeaders k) =
        some (getKV h0 k)) ∧
    (∀ bm, p.body = RBody.map bm →
      ((getHttpRequestArgs c signer p).map fun r => r.callerBody) =
        some (RBody.map (bm.filter (fun e => !(e.2 == JVal.undef))))) := by
  have hs := getHttpRequestArgs_parse_some c signer p u0 hu
  constructor
  · intro k hk1 hk2
    rw [hs, optMapSome]
    by_cases hea : (p.enableAuth == some false) = true <;>
    by_cases hc : strToUpper p.method ∈ BODY_METHODS <;>
    by_cases hua : truthy (getKV h0 "x-user-agent") = true <;>
      simp [buildArgs, hh, hea, hc, hua,
        getKV_constructBodyParams_snd _ _ _ k hk2, getKV_setKV_ne _ _ _ k hk1]
  · intro bm hb
    rw [hs, optMapSome]
    simp [buildArgs, hb, trimUndefinedProperties]

/-- Witness for C9 amended: a custom header key survives unchanged and the
body keeps exactly its defined keys. -/
theorem c9_witness :
    ((getHttpRequestArgs bearerClient demoSigner
        { url := "https://api.twitter.com/2/tweets", method := "post",
          headers := some [("X-Custom", "1")],
          body := RBody.map [("a", JVal.str "1"), ("b", JVal.undef)] }).map
      fun r => getKV r.callerHeaders "X-Custom") =
      some (getKV [("X-Custom", "1")] "X-Custom") ∧
    ((getHttpRequestArgs bearerClient demoSigner
        { url := "https://api.twitter.com/2/tweets", method := "post",
          headers := some [("X-Custom", "1")],
          body := RBody.map [("a", JVal.str "1"), ("b", JVal.undef)] }).map
      fun r => r.callerBody) =
      some (RBody.map ([("a", JVal.str "1"), ("b", JVal.undef)].filter
        (fun e => !(e.2 == JVal.undef)))) :=
  ⟨(c9_caller_mutation_bounded bearerClient demoSigner
      { url := "https://api.twitter.com/2/tweets", method := "post",
        headers := some [("X-Custom", "1")],
        body := RBody.map [("a", JVal.str "1"), ("b", JVal.undef)] }
      [("X-Custom", "1")]
      { scheme := "https", host := "api.twitter.com", pathname := "/2/tweets", searchParams := [] }
      rfl (by decide)).1 "X-Custom" (by decide) (by decide),
   (c9_caller_mutation_bounded bearerClient demoSigner
      { url := "https://api.twitter.com/2/tweets", method := "post",
        headers := some [("X-Custom", "1")],
        body := RBody.map [("a", JVal.str "1"), ("b", JVal.undef)] }
      [("X-Custom", "1")]
      { scheme := "https", host := "api.twitter.com", pathname := "/2/tweets", searchParams := [] }
      rfl (by decide)).2 [("a", JVal.str "1"), ("b", JVal.undef)] rfl⟩
